import Mathlib

/-!
Shallow embedding of the nsjail core (src/mnt.cc and src/cgroup.cc).

Kernel/libc calls (mount, mkdir, stat, statvfs, chroot, chdir, symlink,
access, umount2, pivot_root) and the util.cc helpers (writeBufToFile,
createDirRecursively, writeToFd, rnd64) are modelled as oracles in a
`World` record: each oracle reports whether the corresponding call on the
given arguments succeeds (plus the data it returns, for stat/statvfs).
NULL `char*` arguments of mount(2) are modelled as the empty string.
Machine integers (mount-flag bitmasks, counters) are modelled as `Nat`
with explicit `% 2^32` where unsigned overflow matters.
-/

/-- Linux mount flag `MS_RDONLY`. -/
def MS_RDONLY : Nat := 1
/-- Linux mount flag `MS_NOSUID`. -/
def MS_NOSUID : Nat := 2
/-- Linux mount flag `MS_NODEV`. -/
def MS_NODEV : Nat := 4
/-- Linux mount flag `MS_NOEXEC`. -/
def MS_NOEXEC : Nat := 8
/-- Linux mount flag `MS_SYNCHRONOUS`. -/
def MS_SYNCHRONOUS : Nat := 16
/-- Linux mount flag `MS_REMOUNT`. -/
def MS_REMOUNT : Nat := 32
/-- Linux mount flag `MS_MANDLOCK`. -/
def MS_MANDLOCK : Nat := 64
/-- Linux mount flag `MS_DIRSYNC`. -/
def MS_DIRSYNC : Nat := 128
/-- Linux mount flag `MS_NOATIME`. -/
def MS_NOATIME : Nat := 1024
/-- Linux mount flag `MS_NODIRATIME`. -/
def MS_NODIRATIME : Nat := 2048
/-- Linux mount flag `MS_BIND`. -/
def MS_BIND : Nat := 4096
/-- Linux mount flag `MS_MOVE`. -/
def MS_MOVE : Nat := 8192
/-- Linux mount flag `MS_REC`. -/
def MS_REC : Nat := 16384
/-- Linux mount flag `MS_SILENT`. -/
def MS_SILENT : Nat := 32768
/-- Linux mount flag `MS_POSIXACL`. -/
def MS_POSIXACL : Nat := 65536
/-- Linux mount flag `MS_UNBINDABLE`. -/
def MS_UNBINDABLE : Nat := 131072
/-- Linux mount flag `MS_PRIVATE`. -/
def MS_PRIVATE : Nat := 262144
/-- Linux mount flag `MS_SLAVE`. -/
def MS_SLAVE : Nat := 524288
/-- Linux mount flag `MS_SHARED`. -/
def MS_SHARED : Nat := 1048576
/-- Linux mount flag `MS_RELATIME`. -/
def MS_RELATIME : Nat := 2097152
/-- Linux mount flag `MS_KERNMOUNT`. -/
def MS_KERNMOUNT : Nat := 4194304
/-- Linux mount flag `MS_I_VERSION`. -/
def MS_I_VERSION : Nat := 8388608
/-- Linux mount flag `MS_STRICTATIME`. -/
def MS_STRICTATIME : Nat := 16777216
/-- Linux mount flag `MS_LAZYTIME` (defined in mnt.cc as `1 << 25` when absent). -/
def MS_LAZYTIME : Nat := 33554432

/-- glibc statvfs flag `ST_RDONLY`. -/
def ST_RDONLY : Nat := 1
/-- glibc statvfs flag `ST_NOSUID`. -/
def ST_NOSUID : Nat := 2
/-- glibc statvfs flag `ST_NODEV`. -/
def ST_NODEV : Nat := 4
/-- glibc statvfs flag `ST_NOEXEC`. -/
def ST_NOEXEC : Nat := 8
/-- glibc statvfs flag `ST_SYNCHRONOUS`. -/
def ST_SYNCHRONOUS : Nat := 16
/-- glibc statvfs flag `ST_MANDLOCK`. -/
def ST_MANDLOCK : Nat := 64
/-- glibc statvfs flag `ST_NOATIME`. -/
def ST_NOATIME : Nat := 1024
/-- glibc statvfs flag `ST_NODIRATIME`. -/
def ST_NODIRATIME : Nat := 2048
/-- glibc statvfs flag `ST_RELATIME`. -/
def ST_RELATIME : Nat := 4096

/-- Modelled from the spec: the tri-state is-dir tag (§3.1, §4.3) is an enum
`isDir_t` declared in mnt.h, which is not under src/; only the three tag names
NS_DIR_YES / NS_DIR_NO / NS_DIR_MAYBE are known.  The tag is modelled as a raw
`Nat` (the underlying C enum value) so that the `default:` branch of the
`switch` in `addMountPt` (a value outside the three named ones) is
representable.  The concrete numerals are arbitrary distinct values. -/
def NS_DIR_YES : Nat := 0
/-- See `NS_DIR_YES`. -/
def NS_DIR_NO : Nat := 1
/-- See `NS_DIR_YES`. -/
def NS_DIR_MAYBE : Nat := 2

/-- `clearMask x m` models the C expression `x & ~m` on `Nat`
(sound because `x &&& m` has no bits outside `x`). -/
def clearMask (x m : Nat) : Nat := x ^^^ (x &&& m)

namespace mnt

/-- The mount descriptor `mount_t` (declared in mnt.h, fields as used by
src/mnt.cc and described in the spec §3.1). -/
structure mount_t where
  src : String := ""
  dst : String := ""
  fs_type : String := ""
  options : String := ""
  flags : Nat := 0
  is_dir : Bool := false
  is_symlink : Bool := false
  is_mandatory : Bool := true
  mounted : Bool := false
  src_content : String := ""
deriving Repr, DecidableEq

/-- Observable side-effecting calls made by the embedded code
(mount(2), symlink(2), chroot(2), chdir(2), umount2(2), pivot_root(2)
and, for cgroup.cc, mkdir(2) of a cgroup dir and util::writeBufToFile). -/
inductive Action where
  | mountCall (src dst fstype : String) (flags : Nat) (opts : String)
  | symlinkCall (target linkpath : String)
  | chrootCall (path : String)
  | chdirCall (path : String)
  | umountCall (path : String)
  | pivotRootCall (newRoot putOld : String)
  | mkdirCg (path : String)
  | writeFile (path content : String)
deriving Repr, DecidableEq

/-- Oracle record for the environment, the kernel and the util.cc helpers:
each field tells whether the call on the given arguments succeeds (and what
it returns).  `rnd64` models one draw of `util::rnd64()`; `cloneOk` models
whether `subproc::cloneProc` succeeds. -/
structure World where
  env : String → Option String
  stat : String → Option Bool
  createDirOk : String → Bool
  symlinkOk : String → String → Bool
  mountOk : String → String → String → Nat → String → Bool
  openExclOk : String → Bool
  writeOk : String → Bool
  statvfs : String → Option Nat
  mkdirOkOrExists : String → Bool
  accessROk : String → Bool
  chrootOk : String → Bool
  chdirOk : String → Bool
  umountOk : String → Bool
  pivotOk : String → Bool
  cloneOk : Bool
  rnd64 : Nat

/-- The fields of `nsjconf_t` consumed by src/mnt.cc (declared in nsjail.h,
not under src/; fields as used by the code and described in the spec §3.3).
`mode_standalone_execve` models `nsjconf->mode == MODE_STANDALONE_EXECVE`. -/
structure MntConf where
  clone_newns : Bool := true
  chroot : String := ""
  cwd : String := "/"
  orig_uid : Nat := 0
  mode_standalone_execve : Bool := false
  mountpts : List mount_t := []
deriving Repr, DecidableEq

/-- The static table `mountFlags` of `flagsToStr` (src/mnt.cc lines 60-88),
in source order. -/
def mountFlagsList : List (Nat × String) :=
  [(MS_RDONLY, "MS_RDONLY"), (MS_NOSUID, "MS_NOSUID"), (MS_NODEV, "MS_NODEV"),
   (MS_NOEXEC, "MS_NOEXEC"), (MS_SYNCHRONOUS, "MS_SYNCHRONOUS"),
   (MS_REMOUNT, "MS_REMOUNT"), (MS_MANDLOCK, "MS_MANDLOCK"),
   (MS_DIRSYNC, "MS_DIRSYNC"), (MS_NOATIME, "MS_NOATIME"),
   (MS_NODIRATIME, "MS_NODIRATIME"), (MS_BIND, "MS_BIND"), (MS_MOVE, "MS_MOVE"),
   (MS_REC, "MS_REC"), (MS_SILENT, "MS_SILENT"), (MS_POSIXACL, "MS_POSIXACL"),
   (MS_UNBINDABLE, "MS_UNBINDABLE"), (MS_PRIVATE, "MS_PRIVATE"),
   (MS_SLAVE, "MS_SLAVE"), (MS_SHARED, "MS_SHARED"), (MS_RELATIME, "MS_RELATIME"),
   (MS_KERNMOUNT, "MS_KERNMOUNT"), (MS_I_VERSION, "MS_I_VERSION"),
   (MS_STRICTATIME, "MS_STRICTATIME"), (MS_LAZYTIME, "MS_LAZYTIME")]

/-- `knownFlagMask` as accumulated by the loop in `flagsToStr`. -/
def knownFlagMask : Nat := mountFlagsList.foldl (fun m p => m ||| p.1) 0

/-- The characters printf's `"%#tx"` produces for `n`: `0` for zero,
otherwise `0x` followed by lowercase hex digits. -/
def hexChars (n : Nat) : List Char :=
  if n = 0 then ['0'] else '0' :: 'x' :: Nat.toDigits 16 n

/-- The C test `if (flags & i.flag)` of the `flagsToStr` loop: the table
entry's flag bit is present in `flags`. -/
def flagOn (flags : Nat) (p : Nat × String) : Bool := flags &&& p.1 != 0

/-- The append loop of `flagsToStr` (src/mnt.cc lines 91-97): for each table
entry whose flag is present, append `<name>|` to the accumulated string. -/
def flagsAppendLoop (flags : Nat) : List (Nat × String) → List Char → List Char
  | [], res => res
  | p :: t, res =>
    flagsAppendLoop flags t (if flagOn flags p then res ++ p.2.data ++ ['|'] else res)

/-- `flagsToStr` (src/mnt.cc lines 57-106), building the `std::string` as a
`List Char`: append `<name>|` for each table flag present in `flags`; then, if
no unknown bits remain and the string is non-empty, pop the trailing `|`,
else append the `"%#tx"` rendering of the unknown bits. -/
def flagsToStrChars (flags : Nat) : List Char :=
  let res : List Char := flagsAppendLoop flags mountFlagsList []
  if clearMask flags knownFlagMask = 0 ∧ res ≠ [] then res.dropLast
  else res ++ hexChars (clearMask flags knownFlagMask)

/-- `flagsToStr` as a `String`. -/
def flagsToStr (flags : Nat) : String := ⟨flagsToStrChars flags⟩

/-- Observation function for the spec's flag-string property (§8): split a
character list on the `|` separator, the way the spec's sentence "the output,
when split on `|`" reads it.  Mirrors the usual split-on-separator semantics:
the empty string yields one empty token. -/
def splitBar : List Char → List (List Char)
  | [] => [[]]
  | c :: cs =>
    if c = '|' then [] :: splitBar cs
    else
      match splitBar cs with
      | [] => [[c]]
      | h :: t => (c :: h) :: t

/-- Concatenate tokens, each followed by a `|` — the exact shape the append
loop of `flagsToStr` builds. -/
def joinBar (ls : List (List Char)) : List Char :=
  (ls.map (fun x => x ++ ['|'])).flatten

/-- Tokens interleaved with single `|` separators (no trailing one). -/
def interBar : List (List Char) → List Char
  | [] => []
  | [x] => x
  | x :: y :: t => x ++ '|' :: interBar (y :: t)

/-- The names of the known mount flags present in `flags`, in table order. -/
def activeFlagNames (flags : Nat) : List (List Char) :=
  (mountFlagsList.filter (flagOn flags)).map (fun p => p.2.data)

/-- The flag-string property exactly as the claim states it, at one input:
the output split on `|` is the known-flag names present in the input,
followed by one trailing hexadecimal token exactly when the input has bits
outside the known-flag table. -/
def flagsToStrClaimAt (flags : Nat) : Prop :=
  splitBar (flagsToStr flags).data =
    activeFlagNames flags ++
      (if clearMask flags knownFlagMask ≠ 0
       then [hexChars (clearMask flags knownFlagMask)] else [])

instance (flags : Nat) : Decidable (flagsToStrClaimAt flags) := by
  unfold flagsToStrClaimAt; infer_instance

/-- `isDir` (src/mnt.cc lines 108-124): a NULL path counts as a directory;
otherwise `stat` failure gives false, else the `S_ISDIR` probe result. -/
def isDir (w : World) (path : Option String) : Bool :=
  match path with
  | none => true
  | some p =>
    match w.stat p with
    | none => false
    | some b => b

/-- One step of `mountPt`'s result: success flag, the (possibly mutated)
descriptor, the post-call value of the static `df_counter`, and the
observable calls made. -/
structure MountPtRes where
  ok : Bool
  mpt : mount_t
  ctr : Nat
  tr : List Action
deriving Repr, DecidableEq

/-- `mountPt` (src/mnt.cc lines 126-221).  `newroot`/`tmpdir` are the scratch
directories, `ctr` the value of the static `df_counter` before the call.  The
descriptor is passed by pointer in C; the mutated descriptor is returned. -/
def mountPt (w : World) (m : mount_t) (newroot tmpdir : String) (ctr : Nat) :
    MountPtRes :=
  let dstpath := newroot ++ "/" ++ m.dst
  let srcpath := if m.src = "" then "none" else m.src
  if !w.createDirOk dstpath then ⟨false, m, ctr, []⟩
  else if m.is_symlink then
    ⟨w.symlinkOk srcpath dstpath || !m.is_mandatory, m, ctr,
      [Action.symlinkCall srcpath dstpath]⟩
  else if m.src_content = "" then
    let fl := clearMask m.flags MS_RDONLY
    if w.mountOk srcpath dstpath m.fs_type fl m.options then
      ⟨true, { m with mounted := true }, ctr,
        [Action.mountCall srcpath dstpath m.fs_type fl m.options]⟩
    else
      ⟨false, m, ctr, [Action.mountCall srcpath dstpath m.fs_type fl m.options]⟩
  else
    let ctr2 := ctr + 1
    let srcpath2 := tmpdir ++ "/dynamic_file." ++ toString ctr2
    if !w.openExclOk srcpath2 then ⟨false, m, ctr2, []⟩
    else if !w.writeOk srcpath2 then ⟨false, m, ctr2, []⟩
    else
      let m2 := { m with flags := m.flags ||| (MS_BIND ||| MS_REC ||| MS_PRIVATE) }
      let fl := clearMask m2.flags MS_RDONLY
      if w.mountOk srcpath2 dstpath m2.fs_type fl m2.options then
        ⟨true, { m2 with mounted := true }, ctr2,
          [Action.mountCall srcpath2 dstpath m2.fs_type fl m2.options]⟩
      else
        ⟨false, m2, ctr2, [Action.mountCall srcpath2 dstpath m2.fs_type fl m2.options]⟩

/-- Result of the descriptor loops / of `initNsInternal`. -/
structure LoopRes where
  ok : Bool
  pts : List mount_t
  ctr : Nat
  tr : List Action
deriving Repr, DecidableEq

/-- The mount pass of `initNsInternal` (src/mnt.cc lines 389-393):
`for (auto& p : nsjconf->mountpts) if (!mountPt(&p, ...) && p.is_mandatory) return false;`.
Returns the final descriptor states (the loop mutates them through the
reference). -/
def mountLoop (w : World) (pts : List mount_t) (newroot tmpdir : String)
    (ctr : Nat) : LoopRes :=
  match pts with
  | [] => ⟨true, [], ctr, []⟩
  | p :: rest =>
    let r := mountPt w p newroot tmpdir ctr
    if !r.ok && r.mpt.is_mandatory then ⟨false, r.mpt :: rest, r.ctr, r.tr⟩
    else
      let l := mountLoop w rest newroot tmpdir r.ctr
      ⟨l.ok, r.mpt :: l.pts, l.ctr, r.tr ++ l.tr⟩

/-- The pairs table of `remountRO` (src/mnt.cc lines 240-253), in source
order. -/
def mountPairs : List (Nat × Nat) :=
  [(MS_RDONLY, ST_RDONLY), (MS_NOSUID, ST_NOSUID), (MS_NODEV, ST_NODEV),
   (MS_NOEXEC, ST_NOEXEC), (MS_SYNCHRONOUS, ST_SYNCHRONOUS),
   (MS_MANDLOCK, ST_MANDLOCK), (MS_NOATIME, ST_NOATIME),
   (MS_NODIRATIME, ST_NODIRATIME), (MS_RELATIME, ST_RELATIME)]

/-- The flag composition of `remountRO` (src/mnt.cc lines 255-260): start from
`MS_REMOUNT | MS_RDONLY | MS_BIND` and OR in the mount flag of every pair whose
statvfs flag the probe `vfsFlags` reports. -/
def composeRemountFlags (vfsFlags : Nat) : Nat :=
  mountPairs.foldl
    (fun nf p => if vfsFlags &&& p.2 != 0 then nf ||| p.1 else nf)
    (MS_REMOUNT ||| MS_RDONLY ||| MS_BIND)

/-- `remountRO` (src/mnt.cc lines 223-269): success flag and observable calls. -/
def remountRO (w : World) (m : mount_t) : Bool × List Action :=
  if !m.mounted then (true, [])
  else if m.is_symlink then (true, [])
  else if m.flags &&& MS_RDONLY = 0 then (true, [])
  else
    match w.statvfs m.dst with
    | none => (false, [])
    | some vfsFlags =>
      let nf := composeRemountFlags vfsFlags
      (w.mountOk m.dst m.dst "" nf "", [Action.mountCall m.dst m.dst "" nf ""])

/-- The read-only re-mount pass of `initNsInternal` (src/mnt.cc lines 420-424). -/
def remountLoop (w : World) (pts : List mount_t) : Bool × List Action :=
  match pts with
  | [] => (true, [])
  | p :: rest =>
    let r := remountRO w p
    if !r.1 && p.is_mandatory then (false, r.2)
    else
      let l := remountLoop w rest
      (l.1, r.2 ++ l.2)

/-- `mkdirAndTest` (src/mnt.cc lines 271-282): `mkdir(dir, 0755)` must succeed
or fail with `EEXIST`, and the directory must pass `access(dir, R_OK)`. -/
def mkdirAndTest (w : World) (dir : String) : Bool :=
  if !w.mkdirOkOrExists dir then false
  else if !w.accessROk dir then false
  else true

/-- `getDir` (src/mnt.cc lines 284-333): try the candidate scratch
directories in order, returning the first that passes `mkdirAndTest`;
`none` models the `nullptr` returned when all fail.  `rnd` is the draw of
`util::rnd64()` used by the last candidate. -/
def getDir (w : World) (rnd : Nat) (orig_uid : Nat) (name : String) :
    Option String :=
  let d1 := "/run/user/" ++ "/nsjail." ++ toString orig_uid ++ "." ++ name
  if mkdirAndTest w d1 then some d1 else
  let d2 := "/tmp/nsjail." ++ toString orig_uid ++ "." ++ name
  if mkdirAndTest w d2 then some d2 else
  let step3 : Option String :=
    match w.env "TMPDIR" with
    | none => none
    | some tmp =>
      let d3 := tmp ++ "/" ++ "nsjail." ++ toString orig_uid ++ "." ++ name
      if mkdirAndTest w d3 then some d3 else none
  match step3 with
  | some d => some d
  | none =>
    let d4 := "/dev/shm/nsjail." ++ toString orig_uid ++ "." ++ name
    if mkdirAndTest w d4 then some d4 else
    let d5 := "/tmp/nsjail." ++ toString orig_uid ++ "." ++ name ++ "." ++ toString rnd
    if mkdirAndTest w d5 then some d5 else none

/-- The candidate list of the scratch-directory chooser exactly as the spec
enumerates it (§4.2): `/run/user//nsjail.<uid>.<label>` (with the empty
segment), `/tmp/...`, `$TMPDIR/...` only when TMPDIR is set, `/dev/shm/...`,
and `/tmp/...<random64>`. -/
def getDirCandidates (w : World) (rnd : Nat) (orig_uid : Nat) (name : String) :
    List String :=
  ["/run/user/" ++ "/nsjail." ++ toString orig_uid ++ "." ++ name,
   "/tmp/nsjail." ++ toString orig_uid ++ "." ++ name] ++
  (match w.env "TMPDIR" with
   | none => []
   | some tmp => [tmp ++ "/" ++ "nsjail." ++ toString orig_uid ++ "." ++ name]) ++
  ["/dev/shm/nsjail." ++ toString orig_uid ++ "." ++ name,
   "/tmp/nsjail." ++ toString orig_uid ++ "." ++ name ++ "." ++ toString rnd]

/-- The re-mount flag composition exactly as the spec words it (§4.4.4):
`remount | read-only | bind`, plus each of nosuid, nodev, noexec, sync,
mandlock, noatime, nodiratime, relatime that the probe reports. -/
def remountFlagsSpec (vf : Nat) : Nat :=
  (MS_REMOUNT ||| MS_RDONLY ||| MS_BIND)
  ||| (if vf &&& ST_NOSUID != 0 then MS_NOSUID else 0)
  ||| (if vf &&& ST_NODEV != 0 then MS_NODEV else 0)
  ||| (if vf &&& ST_NOEXEC != 0 then MS_NOEXEC else 0)
  ||| (if vf &&& ST_SYNCHRONOUS != 0 then MS_SYNCHRONOUS else 0)
  ||| (if vf &&& ST_MANDLOCK != 0 then MS_MANDLOCK else 0)
  ||| (if vf &&& ST_NOATIME != 0 then MS_NOATIME else 0)
  ||| (if vf &&& ST_NODIRATIME != 0 then MS_NODIRATIME else 0)
  ||| (if vf &&& ST_RELATIME != 0 then MS_RELATIME else 0)

/-- Result of `initNsInternal`: success flag, final descriptor states, and
observable calls. -/
structure NsRes where
  ok : Bool
  pts : List mount_t
  tr : List Action
deriving Repr, DecidableEq

/-- `initNsInternal` (src/mnt.cc lines 335-427). -/
def initNsInternal (w : World) (c : MntConf) : NsRes :=
  if !c.clone_newns then
    if c.chroot = "" then ⟨false, c.mountpts, []⟩
    else if !w.chrootOk c.chroot then
      ⟨false, c.mountpts, [Action.chrootCall c.chroot]⟩
    else if !w.chdirOk "/" then
      ⟨false, c.mountpts, [Action.chrootCall c.chroot, Action.chdirCall "/"]⟩
    else ⟨true, c.mountpts, [Action.chrootCall c.chroot, Action.chdirCall "/"]⟩
  else if !w.chdirOk "/" then ⟨false, c.mountpts, [Action.chdirCall "/"]⟩
  else
    let tr0 := [Action.chdirCall "/"]
    match getDir w w.rnd64 c.orig_uid "root" with
    | none => ⟨false, c.mountpts, tr0⟩
    | some destdir =>
      let tr1 := tr0 ++ [Action.mountCall "/" "/" "" (MS_REC ||| MS_PRIVATE) ""]
      if !w.mountOk "/" "/" "" (MS_REC ||| MS_PRIVATE) "" then ⟨false, c.mountpts, tr1⟩
      else
        let tr2 := tr1 ++ [Action.mountCall "" destdir "tmpfs" 0 "size=16777216"]
        if !w.mountOk "" destdir "tmpfs" 0 "size=16777216" then ⟨false, c.mountpts, tr2⟩
        else
          match getDir w w.rnd64 c.orig_uid "tmp" with
          | none => ⟨false, c.mountpts, tr2⟩
          | some tmpdir =>
            let tr3 := tr2 ++ [Action.mountCall "" tmpdir "tmpfs" 0 "size=16777216"]
            if !w.mountOk "" tmpdir "tmpfs" 0 "size=16777216" then
              ⟨false, c.mountpts, tr3⟩
            else
              let l := mountLoop w c.mountpts destdir tmpdir 0
              let tr4 := tr3 ++ l.tr
              if !l.ok then ⟨false, l.pts, tr4⟩
              else
                let tr5 := tr4 ++ [Action.umountCall tmpdir]
                if !w.umountOk tmpdir then ⟨false, l.pts, tr5⟩
                else
                  let tr6 := tr5 ++ [Action.pivotRootCall destdir destdir]
                  if !w.pivotOk destdir then ⟨false, l.pts, tr6⟩
                  else
                    let tr7 := tr6 ++ [Action.umountCall "/"]
                    if !w.umountOk "/" then ⟨false, l.pts, tr7⟩
                    else
                      let tr8 := tr7 ++ [Action.chdirCall c.cwd]
                      if !w.chdirOk c.cwd then ⟨false, l.pts, tr8⟩
                      else
                        let r := remountLoop w l.pts
                        ⟨r.1, l.pts, tr8 ++ r.2⟩

/-- Modelled from the spec: `subproc::cloneProc` (subproc.cc, not under src/)
is the clone helper of §6.1 — `clone(flags) → pid`, negative on failure — and
§5/§9 fix the sub-child contract: the child performs the whole mount
construction (`initNsInternal`) and exits with a success/failure code, while
the parent waits for it.  `childWaitStatus` is the wait status the parent
observes: the child of `initNs` always terminates via
`exit(initNsInternal(nsjconf) ? 0 : 0xff)`, a normal exit whose code is 0 on
success and 0xff on failure. -/
inductive WaitStatus where
  | exited (code : Nat)
  | signaled (sig : Nat)
deriving Repr, DecidableEq

/-- See `WaitStatus`: the status `wait4` reports for the sub-child of
`initNs` (src/mnt.cc line 444). -/
def childWaitStatus (w : World) (c : MntConf) : WaitStatus :=
  WaitStatus.exited (if (initNsInternal w c).ok then 0 else 0xff)

/-- `initNs` (src/mnt.cc lines 433-454): outside standalone-exec mode run
`initNsInternal` directly; in standalone-exec mode clone a sub-child (which
runs `initNsInternal` and exits), wait for it, and succeed exactly when
`WIFEXITED(status) && WEXITSTATUS(status) == 0`. -/
def initNs (w : World) (c : MntConf) : Bool :=
  if !c.mode_standalone_execve then (initNsInternal w c).ok
  else if !w.cloneOk then false
  else
    match childWaitStatus w c with
    | WaitStatus.exited 0 => true
    | _ => false

/-- `addMountPt` (src/mnt.cc lines 456-512): finalize one descriptor.
`none` models the `false` return (unset environment variable, or an is-dir
tag outside the three named values). -/
def addMountPt (w : World) (src dst fstype options : String) (flags : Nat)
    (is_dir : Nat) (is_mandatory : Bool) (src_env dst_env src_content : String)
    (is_symlink : Bool) : Option mount_t :=
  let srcRes : Option String :=
    if src_env ≠ "" then
      match w.env src_env with
      | none => none
      | some e => some (e ++ src)
    else some src
  match srcRes with
  | none => none
  | some s =>
    let dstRes : Option String :=
      if dst_env ≠ "" then
        match w.env dst_env with
        | none => none
        | some e => some (e ++ dst)
      else some dst
    match dstRes with
    | none => none
    | some d =>
      let base : mount_t :=
        { src := s, dst := d, fs_type := fstype, options := options,
          flags := flags, is_dir := false, is_symlink := is_symlink,
          is_mandatory := is_mandatory, mounted := false,
          src_content := src_content }
      if is_dir = NS_DIR_YES then some { base with is_dir := true }
      else if is_dir = NS_DIR_NO then some { base with is_dir := false }
      else if is_dir = NS_DIR_MAYBE then
        some { base with is_dir :=
          if src_content ≠ "" then false
          else if s = "" then true
          else if flags &&& MS_BIND != 0 then isDir w (some s)
          else true }
      else none

/-- `addMountPtHead` (src/mnt.cc lines 514-525): finalize and prepend. -/
def addMountPtHead (w : World) (c : MntConf) (src dst fstype options : String)
    (flags : Nat) (is_dir : Nat) (is_mandatory : Bool)
    (src_env dst_env src_content : String) (is_symlink : Bool) :
    Bool × MntConf :=
  match addMountPt w src dst fstype options flags is_dir is_mandatory src_env
      dst_env src_content is_symlink with
  | none => (false, c)
  | some m => (true, { c with mountpts := m :: c.mountpts })

/-- `addMountPtTail` (src/mnt.cc lines 527-538): finalize and append. -/
def addMountPtTail (w : World) (c : MntConf) (src dst fstype options : String)
    (flags : Nat) (is_dir : Nat) (is_mandatory : Bool)
    (src_env dst_env src_content : String) (is_symlink : Bool) :
    Bool × MntConf :=
  match addMountPt w src dst fstype options flags is_dir is_mandatory src_env
      dst_env src_content is_symlink with
  | none => (false, c)
  | some m => (true, { c with mountpts := c.mountpts ++ [m] })

end mnt

namespace cgroup

/-- The cgroup fields of `nsjconf_t` consumed by src/cgroup.cc (declared in
nsjail.h, not under src/; fields as used by the code and described in the
spec §3.2).  Numeric limits are modelled as `Nat`; `cgroup_cpu_ms_per_sec`
is a C `unsigned int`, so its value is below `2^32`. -/
structure CgConf where
  cgroup_mem_max : Nat := 0
  cgroup_mem_mount : String := "/sys/fs/cgroup/memory"
  cgroup_mem_parent : String := "NSJAIL"
  cgroup_pids_max : Nat := 0
  cgroup_pids_mount : String := "/sys/fs/cgroup/pids"
  cgroup_pids_parent : String := "NSJAIL"
  cgroup_net_cls_classid : Nat := 0
  cgroup_net_cls_mount : String := "/sys/fs/cgroup/net_cls"
  cgroup_net_cls_parent : String := "NSJAIL"
  cgroup_cpu_ms_per_sec : Nat := 0
  cgroup_cpu_mount : String := "/sys/fs/cgroup/cpu"
  cgroup_cpu_parent : String := "NSJAIL"
deriving Repr, DecidableEq

/-- Oracles for src/cgroup.cc: whether `mkdir(path, 0700)` succeeds or fails
with `EEXIST`, and whether `util::writeBufToFile(path, buf, len, ...)`
(spec §4.1: open, write all bytes, close) succeeds for the given content. -/
structure CgWorld where
  mkdirOkOrExists : String → Bool
  writeOk : String → String → Bool

/-- The characters printf's `"0x%x"` produces for `n` (used for
`net_cls.classid`): `0x` followed by lowercase hex digits. -/
def hex0x (n : Nat) : String := "0x" ++ String.mk (Nat.toDigits 16 n)

/-- The per-controller group path `"%s/%s/NSJAIL.%d"`. -/
def cgPath (mountPath parent : String) (pid : Nat) : String :=
  mountPath ++ "/" ++ parent ++ "/NSJAIL." ++ toString pid

/-- `initNsFromParentMem` (src/cgroup.cc lines 38-81): skip when the memory
limit is 0; else create the group dir, write `memory.limit_in_bytes`,
write `"0"` to `memory.oom_control`, and write the pid to `tasks`.  The
trace records the mkdir and the `writeBufToFile` calls actually made. -/
def initNsFromParentMem (w : CgWorld) (c : CgConf) (pid : Nat) :
    Bool × List mnt.Action :=
  if c.cgroup_mem_max = 0 then (true, [])
  else
    let path := cgPath c.cgroup_mem_mount c.cgroup_mem_parent pid
    if !w.mkdirOkOrExists path then (false, [mnt.Action.mkdirCg path])
    else
      let f1 := path ++ "/memory.limit_in_bytes"
      let s1 := toString c.cgroup_mem_max
      if !w.writeOk f1 s1 then
        (false, [mnt.Action.mkdirCg path, mnt.Action.writeFile f1 s1])
      else
        let f2 := path ++ "/memory.oom_control"
        if !w.writeOk f2 "0" then
          (false, [mnt.Action.mkdirCg path, mnt.Action.writeFile f1 s1,
            mnt.Action.writeFile f2 "0"])
        else
          let f3 := path ++ "/tasks"
          let s3 := toString pid
          (w.writeOk f3 s3,
            [mnt.Action.mkdirCg path, mnt.Action.writeFile f1 s1,
             mnt.Action.writeFile f2 "0", mnt.Action.writeFile f3 s3])

/-- `initNsFromParentPids` (src/cgroup.cc lines 83-116). -/
def initNsFromParentPids (w : CgWorld) (c : CgConf) (pid : Nat) :
    Bool × List mnt.Action :=
  if c.cgroup_pids_max = 0 then (true, [])
  else
    let path := cgPath c.cgroup_pids_mount c.cgroup_pids_parent pid
    if !w.mkdirOkOrExists path then (false, [mnt.Action.mkdirCg path])
    else
      let f1 := path ++ "/pids.max"
      let s1 := toString c.cgroup_pids_max
      if !w.writeOk f1 s1 then
        (false, [mnt.Action.mkdirCg path, mnt.Action.writeFile f1 s1])
      else
        let f2 := path ++ "/tasks"
        let s2 := toString pid
        (w.writeOk f2 s2,
          [mnt.Action.mkdirCg path, mnt.Action.writeFile f1 s1,
           mnt.Action.writeFile f2 s2])

/-- `initNsFromParentNetCls` (src/cgroup.cc lines 118-154): the class id is
written as `"0x%x"`. -/
def initNsFromParentNetCls (w : CgWorld) (c : CgConf) (pid : Nat) :
    Bool × List mnt.Action :=
  if c.cgroup_net_cls_classid = 0 then (true, [])
  else
    let path := cgPath c.cgroup_net_cls_mount c.cgroup_net_cls_parent pid
    if !w.mkdirOkOrExists path then (false, [mnt.Action.mkdirCg path])
    else
      let f1 := path ++ "/net_cls.classid"
      let s1 := hex0x c.cgroup_net_cls_classid
      if !w.writeOk f1 s1 then
        (false, [mnt.Action.mkdirCg path, mnt.Action.writeFile f1 s1])
      else
        let f2 := path ++ "/tasks"
        let s2 := toString pid
        (w.writeOk f2 s2,
          [mnt.Action.mkdirCg path, mnt.Action.writeFile f1 s1,
           mnt.Action.writeFile f2 s2])

/-- `initNsFromParentCpu` (src/cgroup.cc lines 156-200): the quota is
`"%u"` of `cgroup_cpu_ms_per_sec * 1000U` (unsigned 32-bit arithmetic, hence
the `% 2^32`), and the period is the constant `"1000000"`. -/
def initNsFromParentCpu (w : CgWorld) (c : CgConf) (pid : Nat) :
    Bool × List mnt.Action :=
  if c.cgroup_cpu_ms_per_sec = 0 then (true, [])
  else
    let path := cgPath c.cgroup_cpu_mount c.cgroup_cpu_parent pid
    if !w.mkdirOkOrExists path then (false, [mnt.Action.mkdirCg path])
    else
      let f1 := path ++ "/cpu.cfs_quota_us"
      let s1 := toString (c.cgroup_cpu_ms_per_sec * 1000 % 2 ^ 32)
      if !w.writeOk f1 s1 then
        (false, [mnt.Action.mkdirCg path, mnt.Action.writeFile f1 s1])
      else
        let f2 := path ++ "/cpu.cfs_period_us"
        if !w.writeOk f2 "1000000" then
          (false, [mnt.Action.mkdirCg path, mnt.Action.writeFile f1 s1,
            mnt.Action.writeFile f2 "1000000"])
        else
          let f3 := path ++ "/tasks"
          let s3 := toString pid
          (w.writeOk f3 s3,
            [mnt.Action.mkdirCg path, mnt.Action.writeFile f1 s1,
             mnt.Action.writeFile f2 "1000000", mnt.Action.writeFile f3 s3])

/-- `initNsFromParent` (src/cgroup.cc lines 202-216): the four controllers
in order memory, pids, net_cls, cpu, stopping at the first failure. -/
def initNsFromParent (w : CgWorld) (c : CgConf) (pid : Nat) :
    Bool × List mnt.Action :=
  let r1 := initNsFromParentMem w c pid
  if !r1.1 then (false, r1.2)
  else
    let r2 := initNsFromParentPids w c pid
    if !r2.1 then (false, r1.2 ++ r2.2)
    else
      let r3 := initNsFromParentNetCls w c pid
      if !r3.1 then (false, r1.2 ++ r2.2 ++ r3.2)
      else
        let r4 := initNsFromParentCpu w c pid
        (r4.1, r1.2 ++ r2.2 ++ r3.2 ++ r4.2)

end cgroup

/-- A world in which every call succeeds (used to instantiate theorems at
concrete inputs). -/
def okWorld : mnt.World :=
  { env := fun _ => some "/E"
    stat := fun _ => some true
    createDirOk := fun _ => true
    symlinkOk := fun _ _ => true
    mountOk := fun _ _ _ _ _ => true
    openExclOk := fun _ => true
    writeOk := fun _ => true
    statvfs := fun _ => some 0
    mkdirOkOrExists := fun _ => true
    accessROk := fun _ => true
    chrootOk := fun _ => true
    chdirOk := fun _ => true
    umountOk := fun _ => true
    pivotOk := fun _ => true
    cloneOk := true
    rnd64 := 7 }

/-- Like `okWorld` but every mount(2) call fails. -/
def noMountWorld : mnt.World :=
  { okWorld with mountOk := fun _ _ _ _ _ => false }

/-- Like `okWorld` but the environment has no variables. -/
def noEnvWorld : mnt.World :=
  { okWorld with env := fun _ => none }

/-- Like `okWorld`, but the mount(2) call for the destination
`/run/user//nsjail.0.root//bin` — the destination the descriptor of
`demoConf` resolves to — fails, while every other call succeeds. -/
def binFailWorld : mnt.World :=
  { okWorld with
    mountOk := fun _ dst _ _ _ => !(dst == "/run/user//nsjail.0.root//bin") }

/-- A single non-mandatory descriptor for `/bin`. -/
def demoMount : mnt.mount_t :=
  { src := "/bin", dst := "/bin", fs_type := "", options := "",
    flags := 0, is_dir := true, is_symlink := false, is_mandatory := false,
    mounted := false, src_content := "" }

/-- A configuration whose only descriptor is the non-mandatory `demoMount`. -/
def demoConf : mnt.MntConf :=
  { clone_newns := true, chroot := "", cwd := "/", orig_uid := 0,
    mode_standalone_execve := false,
    mountpts := [demoMount] }

/-- A cgroup world in which every call succeeds. -/
def okCgWorld : cgroup.CgWorld :=
  { mkdirOkOrExists := fun _ => true
    writeOk := fun _ _ => true }

/-- A cgroup world in which every write fails. -/
def noWriteCgWorld : cgroup.CgWorld :=
  { mkdirOkOrExists := fun _ => true
    writeOk := fun _ _ => false }

namespace mnt

theorem splitBar_ne_nil (l : List Char) : splitBar l ≠ [] := by
  cases l with
  | nil => simp [splitBar]
  | cons c cs =>
    simp only [splitBar]
    split
    · simp
    · split <;> simp

theorem splitBar_barFree (l : List Char) (h : '|' ∉ l) : splitBar l = [l] := by
  induction l with
  | nil => rfl
  | cons c cs ih =>
    have hc : ¬(c = '|') := fun e => h (e ▸ List.mem_cons_self c cs)
    have hcs : '|' ∉ cs := fun m => h (List.mem_cons_of_mem c m)
    simp only [splitBar, if_neg hc]
    rw [ih hcs]

theorem splitBar_append_bar (x ys : List Char) (h : '|' ∉ x) :
    splitBar (x ++ '|' :: ys) = x :: splitBar ys := by
  induction x with
  | nil => simp [splitBar]
  | cons c cs ih =>
    have hc : ¬(c = '|') := fun e => h (e ▸ List.mem_cons_self c cs)
    have hcs : '|' ∉ cs := fun m => h (List.mem_cons_of_mem c m)
    simp only [List.cons_append, splitBar, if_neg hc, List.append_eq]
    rw [ih hcs]

theorem digitChar_ne_bar (m : Nat) : Nat.digitChar m ≠ '|' := by
  by_cases h : m < 16
  · interval_cases m <;> decide
  · unfold Nat.digitChar
    repeat rw [if_neg (by omega)]
    decide

theorem toDigitsCore_ne_bar (b : Nat) :
    ∀ (f n : Nat) (acc : List Char), (∀ c ∈ acc, c ≠ '|') →
      ∀ c ∈ Nat.toDigitsCore b f n acc, c ≠ '|' := by
  intro f
  induction f with
  | zero =>
    intro n acc hacc c hc
    exact hacc c hc
  | succ f ih =>
    intro n acc hacc c hc
    simp only [Nat.toDigitsCore] at hc
    split at hc
    · rcases List.mem_cons.mp hc with h | h
      · exact h ▸ digitChar_ne_bar _
      · exact hacc c h
    · refine ih _ _ ?_ c hc
      intro c' hc'
      rcases List.mem_cons.mp hc' with h | h
      · exact h ▸ digitChar_ne_bar _
      · exact hacc c' h

theorem hexChars_ne_bar (n : Nat) : '|' ∉ hexChars n := by
  intro h
  unfold hexChars at h
  split at h
  · simp at h
  · rcases List.mem_cons.mp h with h | h
    · exact absurd h (by decide)
    · rcases List.mem_cons.mp h with h | h
      · exact absurd h (by decide)
      · simp only [Nat.toDigits] at h
        exact toDigitsCore_ne_bar 16 (n + 1) n [] (by simp) '|' h rfl

theorem mountFlagNames_ne_bar : ∀ p ∈ mountFlagsList, '|' ∉ p.2.data := by decide

theorem activeFlagNames_barFree (flags : Nat) :
    ∀ x ∈ activeFlagNames flags, '|' ∉ x := by
  intro x hx
  simp only [activeFlagNames, List.mem_map] at hx
  obtain ⟨p, hp, rfl⟩ := hx
  exact mountFlagNames_ne_bar p (List.mem_of_mem_filter hp)

theorem joinBar_cons (x : List Char) (t : List (List Char)) :
    joinBar (x :: t) = x ++ '|' :: joinBar t := by
  simp [joinBar]

theorem flagsAppendLoop_eq (flags : Nat) (l : List (Nat × String)) (r : List Char) :
    flagsAppendLoop flags l r
      = r ++ joinBar ((l.filter (flagOn flags)).map (fun p => p.2.data)) := by
  induction l generalizing r with
  | nil => simp [flagsAppendLoop, joinBar]
  | cons p t ih =>
    simp only [flagsAppendLoop, List.filter_cons]
    cases h : flagOn flags p with
    | false =>
      rw [if_neg (by simp [h]), if_neg (by simp [h])]
      exact ih r
    | true =>
      rw [if_pos (by simp [h]), if_pos (by simp [h])]
      rw [ih, List.map_cons, joinBar_cons]
      simp [List.append_assoc]

theorem joinBar_eq_nil (ls : List (List Char)) : joinBar ls = [] ↔ ls = [] := by
  cases ls with
  | nil => simp [joinBar]
  | cons x t => simp [joinBar_cons]

theorem joinBar_dropLast :
    ∀ ls : List (List Char), ls ≠ [] → (joinBar ls).dropLast = interBar ls := by
  intro ls
  induction ls with
  | nil => intro h; exact absurd rfl h
  | cons x t ih =>
    intro _
    cases t with
    | nil =>
      show (joinBar [x]).dropLast = interBar [x]
      rw [joinBar_cons]
      show (x ++ ['|']).dropLast = x
      exact List.dropLast_concat ..
    | cons y t2 =>
      have h2 : joinBar (y :: t2) ≠ [] := by
        rw [Ne, joinBar_eq_nil]; simp
      rw [joinBar_cons]
      rw [List.dropLast_append_of_ne_nil _ (by simp)]
      rw [List.dropLast_cons_of_ne_nil h2]
      rw [ih (by simp)]
      rfl

theorem splitBar_interBar :
    ∀ ls : List (List Char), (∀ x ∈ ls, '|' ∉ x) → ls ≠ [] →
      splitBar (interBar ls) = ls := by
  intro ls
  induction ls with
  | nil => intro _ h; exact absurd rfl h
  | cons x t ih =>
    intro hbf _
    cases t with
    | nil => exact splitBar_barFree x (hbf x (by simp))
    | cons y t2 =>
      show splitBar (x ++ '|' :: interBar (y :: t2)) = _
      rw [splitBar_append_bar x _ (hbf x (by simp))]
      rw [ih (fun z hz => hbf z (by simp [hz])) (by simp)]

theorem splitBar_joinBar_append :
    ∀ (ls : List (List Char)) (z : List Char),
      (∀ x ∈ ls, '|' ∉ x) → '|' ∉ z →
      splitBar (joinBar ls ++ z) = ls ++ [z] := by
  intro ls
  induction ls with
  | nil =>
    intro z _ hz
    show splitBar (joinBar [] ++ z) = [z]
    rw [show joinBar [] = [] from rfl, List.nil_append]
    exact splitBar_barFree z hz
  | cons x t ih =>
    intro z hbf hz
    rw [joinBar_cons, List.cons_append, List.append_assoc, List.cons_append]
    rw [splitBar_append_bar x _ (hbf x (by simp))]
    rw [ih z (fun a ha => hbf a (by simp [ha])) hz]

/-- C7 (counterexample): the claim as stated is false at `flags = 0`.  There
`flags` has no known flag set and no bits outside the known-flag table, so the
claim demands that the split output carry no name and no hexadecimal token;
but `flagsToStr 0` is `"0"` (the `"%#tx"` rendering of the zero residue,
appended because the name string is empty), which splits into the single
token `"0"`. -/
theorem flagsToStr_claim_false_at_zero : ¬ flagsToStrClaimAt 0 := by decide

/-- C7 (amended): for every flags bitmask, the flag-formatter's output, split
on the `|` separator, is the list (hence multiset) of names of the known mount
flags set in the input — in table order — followed by at most one trailing
token, the `"%#tx"` hexadecimal rendering of the bits outside the known-flag
table; that token is present exactly when the input has bits outside the table
OR no known flag is set at all (in which case the token may be `"0"`). -/
theorem flagsToStr_split_eq (flags : Nat) :
    splitBar (flagsToStr flags).data =
      activeFlagNames flags ++
        (if clearMask flags knownFlagMask = 0 ∧ activeFlagNames flags ≠ [] then []
         else [hexChars (clearMask flags knownFlagMask)]) := by
  have hres : flagsAppendLoop flags mountFlagsList [] = joinBar (activeFlagNames flags) := by
    rw [flagsAppendLoop_eq]
    rfl
  show splitBar (flagsToStrChars flags) = _
  simp only [flagsToStrChars]
  rw [hres]
  by_cases h0 : clearMask flags knownFlagMask = 0 ∧ activeFlagNames flags ≠ []
  · have hj : joinBar (activeFlagNames flags) ≠ [] := by
      rw [Ne, joinBar_eq_nil]
      exact h0.2
    rw [if_pos ⟨h0.1, hj⟩, if_pos h0]
    rw [joinBar_dropLast _ h0.2]
    rw [splitBar_interBar _ (activeFlagNames_barFree flags) h0.2]
    rw [List.append_nil]
  · have h0' : ¬(clearMask flags knownFlagMask = 0 ∧ joinBar (activeFlagNames flags) ≠ []) := by
      intro hc
      exact h0 ⟨hc.1, fun he => hc.2 (by rw [joinBar_eq_nil]; exact he)⟩
    rw [if_neg h0', if_neg h0]
    exact splitBar_joinBar_append _ _ (activeFlagNames_barFree flags) (hexChars_ne_bar _)

end mnt

namespace mnt

theorem lor_and_self (a b : Nat) : (a ||| b) &&& b = b := by
  apply Nat.eq_of_testBit_eq
  intro i
  rw [Nat.testBit_land, Nat.testBit_lor]
  cases hb : b.testBit i <;> cases ha : a.testBit i <;> rfl

theorem clearMask_testBit (x m i : Nat) :
    (clearMask x m).testBit i = (x.testBit i && !(m.testBit i)) := by
  rw [clearMask, Nat.testBit_xor, Nat.testBit_land]
  cases hx : x.testBit i <;> cases hm : m.testBit i <;> rfl

theorem clearMask_and_self (x m : Nat) : clearMask x m &&& m = 0 := by
  apply Nat.eq_of_testBit_eq
  intro i
  rw [Nat.testBit_land, clearMask_testBit, Nat.zero_testBit]
  cases hx : x.testBit i <;> cases hm : m.testBit i <;> rfl

theorem clearMask_lor_restore (x m : Nat) : clearMask x m ||| (x &&& m) = x := by
  apply Nat.eq_of_testBit_eq
  intro i
  rw [Nat.testBit_lor, clearMask_testBit, Nat.testBit_land]
  cases hx : x.testBit i <;> cases hm : m.testBit i <;> rfl

/-- C2: In standalone-exec mode with a successful clone, `initNs` returns true
iff the sub-child — which performs the whole namespace construction via
`initNsInternal` and exits — terminated normally with exit code 0; the
sub-child's exit code is 0 on the success branch and 0xff on the failure
branch, and these are distinct, so the parent's result equals the sub-child's
construction result. -/
theorem initNs_standalone_exec (w : World) (c : MntConf)
    (hm : c.mode_standalone_execve = true) (hc : w.cloneOk = true) :
    (initNs w c = true ↔ childWaitStatus w c = WaitStatus.exited 0) ∧
    childWaitStatus w c =
      WaitStatus.exited (if (initNsInternal w c).ok then 0 else 0xff) ∧
    (0 : Nat) ≠ 0xff ∧
    initNs w c = (initNsInternal w c).ok := by
  refine ⟨?_, rfl, by decide, ?_⟩
  · cases hok : (initNsInternal w c).ok <;>
      simp [initNs, childWaitStatus, hm, hc, hok]
  · cases hok : (initNsInternal w c).ok <;>
      simp [initNs, childWaitStatus, hm, hc, hok]

/-- C2 witness: the theorem instantiated at a concrete standalone-exec
configuration in the all-succeeding world. -/
theorem initNs_standalone_exec_witness :
    mnt.initNs okWorld { demoConf with mode_standalone_execve := true } =
      (mnt.initNsInternal okWorld { demoConf with mode_standalone_execve := true }).ok :=
  (mnt.initNs_standalone_exec okWorld
    { demoConf with mode_standalone_execve := true } rfl rfl).2.2.2

/-- C9: When the configuration disables the new mount namespace,
`initNsInternal` returns false if the chroot path is empty; otherwise it
chroots to that path and changes directory to `/`, succeeding exactly when
both calls succeed; in this mode the descriptor list is returned unchanged,
the only observable calls are that chroot and that chdir, and the result does
not depend on the mount descriptors at all. -/
theorem initNsInternal_no_newns (w : World) (c : MntConf)
    (h : c.clone_newns = false) :
    (c.chroot = "" → initNsInternal w c = ⟨false, c.mountpts, []⟩) ∧
    (c.chroot ≠ "" →
      (initNsInternal w c).ok = (w.chrootOk c.chroot && w.chdirOk "/") ∧
      (initNsInternal w c).pts = c.mountpts ∧
      ∀ a ∈ (initNsInternal w c).tr,
        a = Action.chrootCall c.chroot ∨ a = Action.chdirCall "/") ∧
    (∀ l, (initNsInternal w { c with mountpts := l }).ok = (initNsInternal w c).ok) := by
  refine ⟨?_, ?_, ?_⟩
  · intro hc
    simp [initNsInternal, h, hc]
  · intro hc
    cases h1 : w.chrootOk c.chroot <;> cases h2 : w.chdirOk "/" <;>
      simp [initNsInternal, h, hc, h1, h2]
  · intro l
    by_cases hc : c.chroot = "" <;>
      cases h1 : w.chrootOk c.chroot <;> cases h2 : w.chdirOk "/" <;>
        simp [initNsInternal, h, hc, h1, h2]

/-- C9 witness: the theorem instantiated at a no-mount-namespace
configuration with an empty chroot in the all-succeeding world. -/
theorem initNsInternal_no_newns_witness :
    mnt.initNsInternal okWorld
      { clone_newns := false, chroot := "", cwd := "/", orig_uid := 0,
        mode_standalone_execve := false, mountpts := [] } =
      ⟨false, [], []⟩ :=
  (mnt.initNsInternal_no_newns okWorld
    { clone_newns := false, chroot := "", cwd := "/", orig_uid := 0,
      mode_standalone_execve := false, mountpts := [] } rfl).1 rfl

end mnt

namespace cgroup

/-- C4: `initNsFromParent` processes the four controllers in the order
memory, pids, net_cls, cpu; any controller whose configured limit is zero is
skipped entirely (it returns true with no mkdir and no write); the whole
call returns true exactly when every non-skipped controller's group mkdir
and all its control-file and tasks writes succeed, and it returns false at
the first failing controller without attempting later ones (its trace stops
at the failing controller's trace). -/
theorem initNsFromParent_spec (w : CgWorld) (c : CgConf) (pid : Nat) :
    ((initNsFromParent w c pid).1 =
      ((initNsFromParentMem w c pid).1 &&
       ((initNsFromParentPids w c pid).1 &&
        ((initNsFromParentNetCls w c pid).1 && (initNsFromParentCpu w c pid).1)))) ∧
    (c.cgroup_mem_max = 0 → initNsFromParentMem w c pid = (true, [])) ∧
    (c.cgroup_pids_max = 0 → initNsFromParentPids w c pid = (true, [])) ∧
    (c.cgroup_net_cls_classid = 0 → initNsFromParentNetCls w c pid = (true, [])) ∧
    (c.cgroup_cpu_ms_per_sec = 0 → initNsFromParentCpu w c pid = (true, [])) ∧
    ((initNsFromParentMem w c pid).1 = false →
      initNsFromParent w c pid = (false, (initNsFromParentMem w c pid).2)) ∧
    ((initNsFromParentMem w c pid).1 = true →
     (initNsFromParentPids w c pid).1 = false →
      initNsFromParent w c pid =
        (false, (initNsFromParentMem w c pid).2 ++ (initNsFromParentPids w c pid).2)) ∧
    ((initNsFromParentMem w c pid).1 = true →
     (initNsFromParentPids w c pid).1 = true →
     (initNsFromParentNetCls w c pid).1 = false →
      initNsFromParent w c pid =
        (false, (initNsFromParentMem w c pid).2 ++ (initNsFromParentPids w c pid).2 ++
          (initNsFromParentNetCls w c pid).2)) ∧
    ((initNsFromParentMem w c pid).1 = true →
     (initNsFromParentPids w c pid).1 = true →
     (initNsFromParentNetCls w c pid).1 = true →
      initNsFromParent w c pid =
        ((initNsFromParentCpu w c pid).1,
          (initNsFromParentMem w c pid).2 ++ (initNsFromParentPids w c pid).2 ++
          (initNsFromParentNetCls w c pid).2 ++ (initNsFromParentCpu w c pid).2)) ∧
    (c.cgroup_mem_max ≠ 0 →
      ((initNsFromParentMem w c pid).1 = true ↔
        (w.mkdirOkOrExists (cgPath c.cgroup_mem_mount c.cgroup_mem_parent pid) = true ∧
         w.writeOk (cgPath c.cgroup_mem_mount c.cgroup_mem_parent pid ++ "/memory.limit_in_bytes")
           (toString c.cgroup_mem_max) = true ∧
         w.writeOk (cgPath c.cgroup_mem_mount c.cgroup_mem_parent pid ++ "/memory.oom_control")
           "0" = true ∧
         w.writeOk (cgPath c.cgroup_mem_mount c.cgroup_mem_parent pid ++ "/tasks")
           (toString pid) = true))) ∧
    (c.cgroup_pids_max ≠ 0 →
      ((initNsFromParentPids w c pid).1 = true ↔
        (w.mkdirOkOrExists (cgPath c.cgroup_pids_mount c.cgroup_pids_parent pid) = true ∧
         w.writeOk (cgPath c.cgroup_pids_mount c.cgroup_pids_parent pid ++ "/pids.max")
           (toString c.cgroup_pids_max) = true ∧
         w.writeOk (cgPath c.cgroup_pids_mount c.cgroup_pids_parent pid ++ "/tasks")
           (toString pid) = true))) ∧
    (c.cgroup_net_cls_classid ≠ 0 →
      ((initNsFromParentNetCls w c pid).1 = true ↔
        (w.mkdirOkOrExists (cgPath c.cgroup_net_cls_mount c.cgroup_net_cls_parent pid) = true ∧
         w.writeOk (cgPath c.cgroup_net_cls_mount c.cgroup_net_cls_parent pid ++ "/net_cls.classid")
           (hex0x c.cgroup_net_cls_classid) = true ∧
         w.writeOk (cgPath c.cgroup_net_cls_mount c.cgroup_net_cls_parent pid ++ "/tasks")
           (toString pid) = true))) ∧
    (c.cgroup_cpu_ms_per_sec ≠ 0 →
      ((initNsFromParentCpu w c pid).1 = true ↔
        (w.mkdirOkOrExists (cgPath c.cgroup_cpu_mount c.cgroup_cpu_parent pid) = true ∧
         w.writeOk (cgPath c.cgroup_cpu_mount c.cgroup_cpu_parent pid ++ "/cpu.cfs_quota_us")
           (toString (c.cgroup_cpu_ms_per_sec * 1000 % 2 ^ 32)) = true ∧
         w.writeOk (cgPath c.cgroup_cpu_mount c.cgroup_cpu_parent pid ++ "/cpu.cfs_period_us")
           "1000000" = true ∧
         w.writeOk (cgPath c.cgroup_cpu_mount c.cgroup_cpu_parent pid ++ "/tasks")
           (toString pid) = true))) := by
  refine ⟨?_, ?_, ?_, ?_, ?_, ?_, ?_, ?_, ?_, ?_, ?_, ?_, ?_⟩
  · cases h1 : (initNsFromParentMem w c pid).1 <;>
      cases h2 : (initNsFromParentPids w c pid).1 <;>
        cases h3 : (initNsFromParentNetCls w c pid).1 <;>
          cases h4 : (initNsFromParentCpu w c pid).1 <;>
            simp [initNsFromParent, h1, h2, h3, h4]
  · intro h0
    simp [initNsFromParentMem, h0]
  · intro h0
    simp [initNsFromParentPids, h0]
  · intro h0
    simp [initNsFromParentNetCls, h0]
  · intro h0
    simp [initNsFromParentCpu, h0]
  · intro h1
    simp [initNsFromParent, h1]
  · intro h1 h2
    simp [initNsFromParent, h1, h2]
  · intro h1 h2 h3
    simp [initNsFromParent, h1, h2, h3]
  · intro h1 h2 h3
    simp [initNsFromParent, h1, h2, h3]
  · intro h0
    cases hk : w.mkdirOkOrExists (cgPath c.cgroup_mem_mount c.cgroup_mem_parent pid) <;>
      cases h1 : w.writeOk (cgPath c.cgroup_mem_mount c.cgroup_mem_parent pid ++ "/memory.limit_in_bytes") (toString c.cgroup_mem_max) <;>
        cases h2 : w.writeOk (cgPath c.cgroup_mem_mount c.cgroup_mem_parent pid ++ "/memory.oom_control") "0" <;>
          cases h3 : w.writeOk (cgPath c.cgroup_mem_mount c.cgroup_mem_parent pid ++ "/tasks") (toString pid) <;>
            simp [initNsFromParentMem, h0, hk, h1, h2, h3]
  · intro h0
    cases hk : w.mkdirOkOrExists (cgPath c.cgroup_pids_mount c.cgroup_pids_parent pid) <;>
      cases h1 : w.writeOk (cgPath c.cgroup_pids_mount c.cgroup_pids_parent pid ++ "/pids.max") (toString c.cgroup_pids_max) <;>
        cases h2 : w.writeOk (cgPath c.cgroup_pids_mount c.cgroup_pids_parent pid ++ "/tasks") (toString pid) <;>
          simp [initNsFromParentPids, h0, hk, h1, h2]
  · intro h0
    cases hk : w.mkdirOkOrExists (cgPath c.cgroup_net_cls_mount c.cgroup_net_cls_parent pid) <;>
      cases h1 : w.writeOk (cgPath c.cgroup_net_cls_mount c.cgroup_net_cls_parent pid ++ "/net_cls.classid") (hex0x c.cgroup_net_cls_classid) <;>
        cases h2 : w.writeOk (cgPath c.cgroup_net_cls_mount c.cgroup_net_cls_parent pid ++ "/tasks") (toString pid) <;>
          simp [initNsFromParentNetCls, h0, hk, h1, h2]
  · intro h0
    cases hk : w.mkdirOkOrExists (cgPath c.cgroup_cpu_mount c.cgroup_cpu_parent pid) <;>
      cases h1 : w.writeOk (cgPath c.cgroup_cpu_mount c.cgroup_cpu_parent pid ++ "/cpu.cfs_quota_us") (toString (c.cgroup_cpu_ms_per_sec * 1000 % 4294967296)) <;>
        cases h2 : w.writeOk (cgPath c.cgroup_cpu_mount c.cgroup_cpu_parent pid ++ "/cpu.cfs_period_us") "1000000" <;>
          cases h3 : w.writeOk (cgPath c.cgroup_cpu_mount c.cgroup_cpu_parent pid ++ "/tasks") (toString pid) <;>
            simp [initNsFromParentCpu, h0, hk, h1, h2, h3]

/-- C4 witness: the theorem instantiated at the default (all-zero-limit)
configuration — the memory controller is skipped — and, through the
first-conjunct shape, at a concrete pid in the all-succeeding world. -/
theorem initNsFromParent_spec_witness :
    cgroup.initNsFromParentMem okCgWorld {} 1234 = (true, []) :=
  (cgroup.initNsFromParent_spec okCgWorld {} 1234).2.1 rfl

end cgroup

namespace mnt

/-- C1: `mounted` is false on every descriptor produced by finalization
(`addMountPt`); `mountPt` sets it true exactly when it succeeds on a
non-symlink descriptor, i.e. when the kernel mount call for that descriptor
succeeds; in the mount pass a failing descriptor aborts the loop iff it is
mandatory — a non-mandatory failure leaves its descriptor (with `mounted`
still false) in the list and continues with the rest, and a mandatory failure
returns false immediately.  Concretely, with a single non-mandatory
descriptor whose mount call fails, `initNsInternal` still returns true and
that descriptor's `mounted` remains false. -/
theorem mounted_lifecycle :
    (∀ (w : World) (src dst fstype options : String) (flags is_dir : Nat)
        (is_mandatory : Bool) (src_env dst_env src_content : String)
        (is_symlink : Bool) (m : mount_t),
        addMountPt w src dst fstype options flags is_dir is_mandatory src_env
            dst_env src_content is_symlink = some m →
        m.mounted = false) ∧
    (∀ (w : World) (m : mount_t) (nr td : String) (ctr : Nat),
        m.mounted = false →
        (mountPt w m nr td ctr).mpt.mounted =
          ((mountPt w m nr td ctr).ok && !m.is_symlink)) ∧
    (∀ (w : World) (m : mount_t) (rest : List mount_t) (nr td : String) (ctr : Nat),
        (mountPt w m nr td ctr).ok = false →
        ((mountPt w m nr td ctr).mpt.is_mandatory = true →
          mountLoop w (m :: rest) nr td ctr =
            ⟨false, (mountPt w m nr td ctr).mpt :: rest,
              (mountPt w m nr td ctr).ctr, (mountPt w m nr td ctr).tr⟩) ∧
        ((mountPt w m nr td ctr).mpt.is_mandatory = false →
          (mountLoop w (m :: rest) nr td ctr).ok =
            (mountLoop w rest nr td (mountPt w m nr td ctr).ctr).ok ∧
          (mountLoop w (m :: rest) nr td ctr).pts =
            (mountPt w m nr td ctr).mpt ::
              (mountLoop w rest nr td (mountPt w m nr td ctr).ctr).pts)) ∧
    ((initNsInternal binFailWorld demoConf).ok = true ∧
      (initNsInternal binFailWorld demoConf).pts.map mount_t.mounted = [false]) := by
  refine ⟨?_, ?_, ?_, by decide⟩
  · intro w src dst fstype options flags isd mand senv denv scont sl m h
    simp only [addMountPt] at h
    repeat' split at h
    all_goals first
      | exact Option.noConfusion h
      | (injection h with h2; subst h2; rfl)
  · intro w m nr td ctr h
    simp only [mountPt]
    repeat' split
    all_goals simp_all
  · intro w m rest nr td ctr hok
    constructor
    · intro hman
      simp only [mountLoop]
      rw [hok, hman]
      simp
    · intro hman
      simp only [mountLoop]
      rw [hok, hman]
      simp

/-- C1 witness: the theorem's quantified conjuncts instantiated at a concrete
descriptor finalized by `addMountPt` in the all-succeeding world, at a
concrete failing `mountPt` call, and at a concrete one-descriptor loop. -/
theorem mounted_lifecycle_witness :
    demoMount.mounted = false ∧
    (mnt.mountPt noMountWorld demoMount "/r" "/t" 0).mpt.mounted =
      ((mnt.mountPt noMountWorld demoMount "/r" "/t" 0).ok && !demoMount.is_symlink) ∧
    (mnt.mountLoop noMountWorld [demoMount] "/r" "/t" 0).ok =
      (mnt.mountLoop noMountWorld [] "/r" "/t"
        (mnt.mountPt noMountWorld demoMount "/r" "/t" 0).ctr).ok :=
  ⟨mnt.mounted_lifecycle.1 noMountWorld "/bin" "/bin" "" "" 0 NS_DIR_YES false
      "" "" "" false demoMount (by decide),
   mnt.mounted_lifecycle.2.1 noMountWorld demoMount "/r" "/t" 0 (by decide),
   ((mnt.mounted_lifecycle.2.2.1 noMountWorld demoMount [] "/r" "/t" 0
      (by decide)).2 (by decide)).1⟩

end mnt

namespace mnt

/-- C3 (counterexample): the claim as stated is false at a concrete input —
finalization does not put bind|recursive|private into a source-content
descriptor's flags.  Adding a descriptor with source-content `"x"` and flags 0
succeeds, and immediately after the successful `addMountPtTail` (before any
mount pass) the descriptor's flags are still 0, which does not contain
`MS_BIND|MS_REC|MS_PRIVATE`. -/
theorem srcContent_finalize_claim_false :
    (addMountPtTail okWorld {} "" "/d" "" "" 0 NS_DIR_MAYBE true "" "" "x" false).1
      = true ∧
    (addMountPtTail okWorld {} "" "/d" "" "" 0 NS_DIR_MAYBE true "" "" "x" false).2.mountpts
      = [{ src := "", dst := "/d", fs_type := "", options := "", flags := 0,
           is_dir := false, is_symlink := false, is_mandatory := true,
           mounted := false, src_content := "x" }] ∧
    ¬((0 : Nat) &&& (MS_BIND ||| MS_REC ||| MS_PRIVATE)
        = MS_BIND ||| MS_REC ||| MS_PRIVATE) := by
  decide

/-- C3 (amended): the bind+recursive+private flags are OR-ed into a
source-content descriptor's flags by `mountPt` during the mount pass, not at
finalization: for every non-symlink descriptor with non-empty source-content,
after a successful `mountPt` the descriptor's flags contain
`MS_BIND|MS_REC|MS_PRIVATE`. -/
theorem mountPt_srcContent_flags (w : World) (m : mount_t) (nr td : String)
    (ctr : Nat) (hc : m.src_content ≠ "") (hs : m.is_symlink = false)
    (hok : (mountPt w m nr td ctr).ok = true) :
    (mountPt w m nr td ctr).mpt.flags &&& (MS_BIND ||| MS_REC ||| MS_PRIVATE) =
      MS_BIND ||| MS_REC ||| MS_PRIVATE := by
  cases hcd : w.createDirOk (nr ++ "/" ++ m.dst) <;>
    cases hox : w.openExclOk (td ++ "/dynamic_file." ++ toString (ctr + 1)) <;>
      cases hwx : w.writeOk (td ++ "/dynamic_file." ++ toString (ctr + 1)) <;>
        cases hmo : w.mountOk (td ++ "/dynamic_file." ++ toString (ctr + 1))
            (nr ++ "/" ++ m.dst) m.fs_type
            (clearMask (m.flags ||| (MS_BIND ||| MS_REC ||| MS_PRIVATE)) MS_RDONLY)
            m.options <;>
          (unfold mountPt at hok ⊢ <;> simp_all [lor_and_self])

/-- C3 witness: the amended theorem instantiated at a concrete source-content
descriptor in the all-succeeding world. -/
theorem mountPt_srcContent_flags_witness :
    (mnt.mountPt okWorld { demoMount with src_content := "x", is_dir := false }
        "/r" "/t" 0).mpt.flags &&& (MS_BIND ||| MS_REC ||| MS_PRIVATE) =
      MS_BIND ||| MS_REC ||| MS_PRIVATE :=
  mnt.mountPt_srcContent_flags okWorld
    { demoMount with src_content := "x", is_dir := false } "/r" "/t" 0
    (by decide) rfl (by decide)

/-- C5: is-dir resolution during finalization: tag `yes` resolves to true and
`no` to false; `maybe` resolves by: non-empty source-content gives false,
otherwise an empty (post-env-expansion) source gives true, otherwise if the
bind flag is set the result is the is-directory probe of the source path,
otherwise true. -/
theorem addMountPt_isDir_resolution (w : World) (src dst fstype options : String)
    (flags : Nat) (is_mandatory : Bool) (src_env dst_env src_content : String)
    (is_symlink : Bool) :
    (∀ m, addMountPt w src dst fstype options flags NS_DIR_YES is_mandatory
        src_env dst_env src_content is_symlink = some m → m.is_dir = true) ∧
    (∀ m, addMountPt w src dst fstype options flags NS_DIR_NO is_mandatory
        src_env dst_env src_content is_symlink = some m → m.is_dir = false) ∧
    (∀ m, addMountPt w src dst fstype options flags NS_DIR_MAYBE is_mandatory
        src_env dst_env src_content is_symlink = some m →
      m.is_dir = (if src_content ≠ "" then false
                  else if m.src = "" then true
                  else if flags &&& MS_BIND != 0 then isDir w (some m.src)
                  else true)) := by
  refine ⟨?_, ?_, ?_⟩ <;>
  · intro m h
    simp only [addMountPt] at h
    repeat' split at h
    all_goals try exact Option.noConfusion h
    all_goals try (injection h with h2; subst h2)
    all_goals try subst h
    all_goals first
      | rfl
      | simp_all [NS_DIR_YES, NS_DIR_NO, NS_DIR_MAYBE]

/-- C5 witness: the `maybe` conjunct instantiated at a concrete descriptor
with the bind flag and an existing-directory source in the all-succeeding
world. -/
theorem addMountPt_isDir_resolution_witness :
    ({ src := "/bin", dst := "/b", fs_type := "", options := "",
       flags := MS_BIND, is_dir := true, is_symlink := false,
       is_mandatory := true, mounted := false, src_content := "" } : mnt.mount_t).is_dir
      = (if ("" : String) ≠ "" then false
         else if ("/bin" : String) = "" then true
         else if MS_BIND &&& MS_BIND != 0 then mnt.isDir okWorld (some "/bin")
         else true) :=
  (mnt.addMountPt_isDir_resolution okWorld "/bin" "/b" "" "" MS_BIND true
    "" "" "" false).2.2 _ (by decide)

end mnt

namespace mnt

theorem composeRemountFlags_eq (vf : Nat) :
    composeRemountFlags vf = remountFlagsSpec vf := by
  simp only [composeRemountFlags, remountFlagsSpec, mountPairs, List.foldl_cons,
    List.foldl_nil]
  cases h1 : vf &&& ST_RDONLY != 0 <;> cases h2 : vf &&& ST_NOSUID != 0 <;>
    cases h3 : vf &&& ST_NODEV != 0 <;> cases h4 : vf &&& ST_NOEXEC != 0 <;>
      cases h5 : vf &&& ST_SYNCHRONOUS != 0 <;> cases h6 : vf &&& ST_MANDLOCK != 0 <;>
        cases h7 : vf &&& ST_NOATIME != 0 <;> cases h8 : vf &&& ST_NODIRATIME != 0 <;>
          cases h9 : vf &&& ST_RELATIME != 0 <;> decide

/-- C6: every kernel mount call the initial mount pass (`mountPt`) makes is
invoked with the read-only flag cleared from the descriptor's flags (after
the source-content OR-in, if any): its flags argument contains no read-only
bit and restores the descriptor's flags when the stripped read-only bits are
OR-ed back.  The re-mount pass (`remountRO`) calls mount — on the destination
as both source and target, with empty fstype and no options — for exactly
those descriptors that are mounted, not symlinks, and whose flags contain
read-only: its composed flags equal remount|read-only|bind plus each of
{nosuid, nodev, noexec, sync, mandlock, noatime, nodiratime, relatime} that
the statvfs probe reports, and a descriptor failing the condition produces no
mount call at all. -/
theorem ro_strip_and_remount :
    (∀ (w : World) (m : mount_t) (nr td : String) (ctr : Nat)
        (s d ft : String) (f : Nat) (o : String),
        Action.mountCall s d ft f o ∈ (mountPt w m nr td ctr).tr →
        f = clearMask (if m.src_content = "" then m.flags
              else m.flags ||| (MS_BIND ||| MS_REC ||| MS_PRIVATE)) MS_RDONLY ∧
        f &&& MS_RDONLY = 0) ∧
    (∀ x : Nat, clearMask x MS_RDONLY ||| (x &&& MS_RDONLY) = x) ∧
    (∀ (w : World) (m : mount_t) (vf : Nat),
        m.mounted = true → m.is_symlink = false → m.flags &&& MS_RDONLY ≠ 0 →
        w.statvfs m.dst = some vf →
        remountRO w m =
          (w.mountOk m.dst m.dst "" (composeRemountFlags vf) "",
           [Action.mountCall m.dst m.dst "" (composeRemountFlags vf) ""]) ∧
        composeRemountFlags vf = remountFlagsSpec vf) ∧
    (∀ (w : World) (m : mount_t),
        m.mounted = false ∨ m.is_symlink = true ∨ m.flags &&& MS_RDONLY = 0 →
        remountRO w m = (true, [])) := by
  refine ⟨?_, ?_, ?_, ?_⟩
  · intro w m nr td ctr s d ft f o hmem
    revert hmem
    simp only [mountPt]
    repeat' split
    all_goals intro hmem
    all_goals simp_all [clearMask_and_self]
  · intro x
    exact clearMask_lor_restore x MS_RDONLY
  · intro w m vf h1 h2 h3 h4
    refine ⟨?_, composeRemountFlags_eq vf⟩
    simp [remountRO, h1, h2, h3, h4]
  · intro w m h
    rcases h with h | h | h
    · simp [remountRO, h]
    · simp [remountRO, h]
    · cases hm : m.mounted <;> cases hs : m.is_symlink <;>
        simp [remountRO, h, hm, hs]

/-- C6 witness: the re-mount conjunct instantiated at a concrete mounted
read-only descriptor in the all-succeeding world (whose statvfs probe
reports no flags). -/
theorem ro_strip_and_remount_witness :
    mnt.remountRO okWorld { demoMount with mounted := true, flags := MS_RDONLY } =
      (okWorld.mountOk "/bin" "/bin" "" (mnt.composeRemountFlags 0) "",
       [mnt.Action.mountCall "/bin" "/bin" "" (mnt.composeRemountFlags 0) ""]) ∧
    mnt.composeRemountFlags 0 = mnt.remountFlagsSpec 0 :=
  mnt.ro_strip_and_remount.2.2.1 okWorld
    { demoMount with mounted := true, flags := MS_RDONLY } 0
    rfl rfl (by decide) rfl

end mnt

namespace mnt

/-- C8: the scratch-directory chooser tries exactly the candidate paths of
`getDirCandidates` in that order — the first one literally contains the empty
path segment after `/run/user/`, and the `$TMPDIR` candidate is present only
when TMPDIR is set — returning the first candidate that passes
`mkdirAndTest` (can be created or already exists, and is readable), and
returns `none` exactly when every candidate fails. -/
theorem getDir_tries_candidates (w : World) (rnd uid : Nat) (name : String) :
    getDir w rnd uid name =
      (getDirCandidates w rnd uid name).find? (fun d => mkdirAndTest w d) ∧
    (getDirCandidates w rnd uid name).head? =
      some ("/run/user//nsjail." ++ toString uid ++ "." ++ name) ∧
    (getDir w rnd uid name = none ↔
      ∀ d ∈ getDirCandidates w rnd uid name, mkdirAndTest w d = false) := by
  have hfind : getDir w rnd uid name =
      (getDirCandidates w rnd uid name).find? (fun d => mkdirAndTest w d) := by
    unfold getDir getDirCandidates
    cases henv : w.env "TMPDIR" with
    | none =>
      by_cases h1 : mkdirAndTest w ("/run/user//nsjail." ++ toString uid ++ "." ++ name) <;>
        by_cases h2 : mkdirAndTest w ("/tmp/nsjail." ++ toString uid ++ "." ++ name) <;>
          by_cases h4 : mkdirAndTest w ("/dev/shm/nsjail." ++ toString uid ++ "." ++ name) <;>
            by_cases h5 : mkdirAndTest w ("/tmp/nsjail." ++ toString uid ++ "." ++ name ++ "." ++ toString rnd) <;>
              simp [List.find?, h1, h2, h4, h5]
    | some tmp =>
      by_cases h1 : mkdirAndTest w ("/run/user//nsjail." ++ toString uid ++ "." ++ name) <;>
        by_cases h2 : mkdirAndTest w ("/tmp/nsjail." ++ toString uid ++ "." ++ name) <;>
          by_cases h3 : mkdirAndTest w (tmp ++ "/" ++ "nsjail." ++ toString uid ++ "." ++ name) <;>
            by_cases h4 : mkdirAndTest w ("/dev/shm/nsjail." ++ toString uid ++ "." ++ name) <;>
              by_cases h5 : mkdirAndTest w ("/tmp/nsjail." ++ toString uid ++ "." ++ name ++ "." ++ toString rnd) <;>
                simp [List.find?, h1, h2, h3, h4, h5]
  refine ⟨hfind, ?_, ?_⟩
  · have hs : "/run/user/" ++ "/nsjail." = "/run/user//nsjail." := by decide
    unfold getDirCandidates
    cases henv : w.env "TMPDIR" <;> simp [hs]
  · rw [hfind, List.find?_eq_none]
    simp

end mnt

namespace mnt

/-- C10: a call to `addMountPtHead`/`addMountPtTail` that returns false — and
those are exactly the calls where a named source or destination environment
variable is unset or the is-dir tag is outside {yes, no, maybe} — leaves the
configuration's descriptor sequence unchanged; a call that returns true
inserts exactly one descriptor (the finalized one), at the head for the head
variant and at the tail for the tail variant. -/
theorem addMountPt_head_tail (w : World) (c : MntConf)
    (src dst fstype options : String) (flags is_dir : Nat) (is_mandatory : Bool)
    (src_env dst_env src_content : String) (is_symlink : Bool) :
    (addMountPt w src dst fstype options flags is_dir is_mandatory src_env
        dst_env src_content is_symlink = none →
      addMountPtHead w c src dst fstype options flags is_dir is_mandatory
        src_env dst_env src_content is_symlink = (false, c) ∧
      addMountPtTail w c src dst fstype options flags is_dir is_mandatory
        src_env dst_env src_content is_symlink = (false, c)) ∧
    (∀ m, addMountPt w src dst fstype options flags is_dir is_mandatory src_env
        dst_env src_content is_symlink = some m →
      addMountPtHead w c src dst fstype options flags is_dir is_mandatory
        src_env dst_env src_content is_symlink =
          (true, { c with mountpts := m :: c.mountpts }) ∧
      addMountPtTail w c src dst fstype options flags is_dir is_mandatory
        src_env dst_env src_content is_symlink =
          (true, { c with mountpts := c.mountpts ++ [m] })) ∧
    (addMountPt w src dst fstype options flags is_dir is_mandatory src_env
        dst_env src_content is_symlink = none ↔
      ((src_env ≠ "" ∧ w.env src_env = none) ∨
       (dst_env ≠ "" ∧ w.env dst_env = none) ∨
       (is_dir ≠ NS_DIR_YES ∧ is_dir ≠ NS_DIR_NO ∧ is_dir ≠ NS_DIR_MAYBE))) := by
  refine ⟨?_, ?_, ?_⟩
  · intro h
    constructor <;> simp [addMountPtHead, addMountPtTail, h]
  · intro m h
    constructor <;> simp [addMountPtHead, addMountPtTail, h]
  · simp only [addMountPt]
    by_cases hse : src_env = "" <;> by_cases hde : dst_env = "" <;>
      rcases henvS : w.env src_env with _ | es <;>
        rcases henvD : w.env dst_env with _ | ed <;>
          by_cases hy : is_dir = NS_DIR_YES <;>
            by_cases hn : is_dir = NS_DIR_NO <;>
              by_cases hm2 : is_dir = NS_DIR_MAYBE <;>
                simp_all

/-- C10 witness: the failure conjunct instantiated at a call naming a source
environment variable in a world whose environment is empty, and the success
conjunct at a plain bind entry in the all-succeeding world. -/
theorem addMountPt_head_tail_witness :
    mnt.addMountPtHead noEnvWorld demoConf "/x" "/x" "" "" 0 NS_DIR_YES true
      "UNSET_VAR" "" "" false = (false, demoConf) ∧
    mnt.addMountPtTail okWorld demoConf "/bin" "/bin" "" "" 0 NS_DIR_YES false
      "" "" "" false =
      (true, { demoConf with mountpts := demoConf.mountpts ++ [demoMount] }) :=
  ⟨(mnt.addMountPt_head_tail noEnvWorld demoConf "/x" "/x" "" "" 0 NS_DIR_YES
      true "UNSET_VAR" "" "" false).1 (by decide) |>.1,
   ((mnt.addMountPt_head_tail okWorld demoConf "/bin" "/bin" "" "" 0 NS_DIR_YES
      false "" "" "" false).2.1 demoMount (by decide)).2⟩

end mnt
